import Mathlib

/-!
Shallow embedding of the generative-visuals engine (`src/app.js`, the full
variant defining `visualScale` and the eight effect classes) and proofs of
the specification claims about it.

Modelling conventions:
* JavaScript numbers are embedded as exact numbers: `ℝ` where the code uses
  the transcendental functions `Math.sqrt`/`Math.sin`/`Math.PI` in a way a
  claim depends on, and `ℚ` (every IEEE double is a rational) for the
  state-machine effects where claims are settled by exact arithmetic.
* `Math.random()` is modelled as an explicit stream `ℕ → ℚ` (or `ℕ → ℝ`) of
  values in `[0, 1)`, consumed at explicit indices.
* `Math.sin` applied inside `ℚ`-valued state is modelled as an oracle
  parameter `msin : ℚ → ℚ` (the platform's double-valued sine); no claim
  depends on its values.
* JavaScript `%` on nonnegative numbers is `jsMod a b = a - b * ⌊a / b⌋`.
* Each effect's `render()` is embedded as a function returning the (possibly
  updated) instance state together with the drawing output it computes, so
  that state mutation by `render` would be visible in the returned state.
-/

namespace AppJs

/-- Reference area constant (`const REF_AREA = 280 * 200`, line 845). -/
noncomputable def REF_AREA : ℝ := 280 * 200

/-- The scale model (`function visualScale(width, height)`, lines 846-848):
`Math.sqrt((width * height) / REF_AREA)`. -/
noncomputable def visualScale (width height : ℝ) : ℝ :=
  Real.sqrt ((width * height) / REF_AREA)

/-- The IEEE-754 double value of `Math.PI`, as an exact rational. -/
def MathPI : ℚ := 884279719003555 / 281474976710656

/-- JavaScript `%` (fmod) on exact rationals, valid for a nonnegative
dividend and positive divisor as used throughout the source. -/
def jsModQ (a b : ℚ) : ℚ := a - b * ⌊a / b⌋

/-- Lantern entity state (`initLanterns`, lines 1113-1131). -/
structure Lantern where
  x : ℚ
  y : ℚ
  radius : ℚ
  swing : ℚ
  swingSpeed : ℚ
  floatSpeed : ℚ
  swayAmount : ℚ
  hue : ℚ
  sat : ℚ
  ribOffset : ℚ
deriving DecidableEq, Inhabited

/-- One lantern built by `initLanterns` (lines 1117-1130) from the random
stream `r` starting at index `k`; `w`, `h` are the surface dimensions and
`s` the current scale (`sizeScale = 0.58` is the literal from line 1116). -/
def initLantern (w h s : ℚ) (r : ℕ → ℚ) (k : ℕ) : Lantern :=
  { x := r k * w
    y := r (k + 1) * h
    radius := (28 + r (k + 2) * 38) * s * 0.58
    swing := r (k + 3) * MathPI * 2
    swingSpeed := 0.00015 + r (k + 4) * 0.00035
    floatSpeed := (0.004 + r (k + 5) * 0.009) * s
    swayAmount := 0.04 + r (k + 6) * 0.08
    hue := 0 + r (k + 7) * 14
    sat := 88 + r (k + 8) * 12
    ribOffset := r (k + 9) * MathPI }

/-- Per-lantern step of `LanternsVisual.update` (lines 1154-1162): advance the
swing, sway horizontally by `sin(swing) * swayAmount * s`, float upward by
`floatSpeed`, and respawn at the bottom at a fresh random `x` once above the
top by three radii. `msin` is the platform sine oracle and `rx` the random
value a respawn would consume. -/
def lanternStep (msin : ℚ → ℚ) (rx : ℚ) (w h s : ℚ) (l : Lantern) : Lantern :=
  if l.y - l.floatSpeed < -(l.radius * 3) then
    { l with swing := l.swing + l.swingSpeed, y := h + l.radius * 2, x := rx * w }
  else
    { l with swing := l.swing + l.swingSpeed,
             x := l.x + msin (l.swing + l.swingSpeed) * l.swayAmount * s,
             y := l.y - l.floatSpeed }

/-- Iterated `update` applied to one lantern; `rxs n` is the random value
available to a respawn at step `n`. -/
def lanternIter (msin : ℚ → ℚ) (rxs : ℕ → ℚ) (w h s : ℚ) : ℕ → Lantern → Lantern
  | 0, l => l
  | n + 1, l => lanternStep msin (rxs n) w h s (lanternIter msin rxs w h s n l)

/-- Model of `LanternsVisual.lanternDepth` (lines 1165-1168): clamp the lantern's `y`
to `[-2r, height + 2r]` and map it affinely through
`0.12 + 0.82 * (1 - y / (height + 4r))`. Note the direction: a larger
(clamped) `y` -- a lantern lower on screen -- yields a strictly smaller
depth, so lower lanterns are drawn earlier and higher ones on top. -/
def lanternDepth (height : ℚ) (l : Lantern) : ℚ :=
  let y := max (-(l.radius * 2)) (min (height + l.radius * 2) l.y)
  0.12 + 0.82 * (1 - y / (height + l.radius * 4))

/-- Branch occluder (`initObstructions`, lines 1133-1149): a fixed depth, a
stroke width, and an index identifying which of the five curved paths it
draws. -/
structure Obstruction where
  depth : ℚ
  lineWidth : ℚ
  pathIdx : ℕ
deriving DecidableEq, Inhabited

/-- The five branches of `initObstructions` with their literal depths
(lines 1141-1147); `rws` are the random stroke-width draws (`4 + rand * 5`,
line 1148). -/
def initObstructions (rws : ℕ → ℚ) : List Obstruction :=
  (List.enum [(0.22 : ℚ), 0.48, 0.58, 0.72, 0.35]).map
    (fun p => { depth := p.2, lineWidth := 4 + rws p.1 * 5, pathIdx := p.1 })

/-- Full `LanternsVisual` instance state. -/
structure LanternsState where
  width : ℚ
  height : ℚ
  time : ℚ
  scale : ℚ
  lanterns : List Lantern
  obstructions : List Obstruction
deriving DecidableEq

/-- A depth-tagged entry of the `drawables` list built in
`LanternsVisual.render` (lines 1279-1281). -/
inductive DrawSubject where
  | ob (o : Obstruction)
  | lan (l : Lantern)
deriving DecidableEq

/-- Drawable as pushed by `render`: the depth recorded at push time together
with the entity to draw. -/
structure Drawable where
  depth : ℚ
  subject : DrawSubject
deriving DecidableEq

/-- Paint-order relation used by the sort comparator
`(a, b) => a.depth - b.depth` (line 1282). -/
def depthLE (a b : Drawable) : Prop := a.depth ≤ b.depth

instance : DecidableRel depthLE := fun a b => inferInstanceAs (Decidable (a.depth ≤ b.depth))

instance : IsTotal Drawable depthLE := ⟨fun a b => le_total a.depth b.depth⟩

instance : IsTrans Drawable depthLE := ⟨fun _ _ _ hab hbc => le_trans hab hbc⟩

/-- The merged, depth-sorted drawable list of `LanternsVisual.render`
(lines 1279-1282): all obstructions, then all lanterns (at their
`lanternDepth`), sorted ascending by depth. -/
def renderDrawables (st : LanternsState) : List Drawable :=
  List.insertionSort depthLE
    (st.obstructions.map (fun o => { depth := o.depth, subject := .ob o }) ++
     st.lanterns.map (fun l => { depth := lanternDepth st.height l, subject := .lan l }))

/-- Model of `LanternsVisual.render` (lines 1275-1291): reads the state, fills the
background and draws the sorted drawables in order; it assigns no instance
field, so the returned state is the input state. -/
def lanternsRender (st : LanternsState) : LanternsState × List Drawable :=
  (st, renderDrawables st)

/-- Concrete `LanternsState` used to witness the render-order theorem. -/
def lanternsWitnessState : LanternsState :=
  { width := 280, height := 200, time := 0, scale := 1
    lanterns := [{ x := 140, y := 0, radius := 10, swing := 0, swingSpeed := 0.0002,
                   floatSpeed := 0.01, swayAmount := 0.05, hue := 5, sat := 90,
                   ribOffset := 0 }]
    obstructions := [{ depth := 0.22, lineWidth := 5, pathIdx := 0 }] }

/-- Random stream for the depth counterexample: the only indices read by
`initLantern` at offset 0 are 0-9; values chosen inside `[0, 1)` so the
lantern is one `initLanterns` can actually produce at scale 1. -/
def lanternCexRand : ℕ → ℚ :=
  fun i => if i = 0 then 1 / 2 else if i = 2 then 94 / 551 else if i = 5 then 17 / 18 else 0

/-- A lantern produced by `initLanterns` on a 280×200 surface (where the
scale is exactly 1): it starts at the top-left region with radius 20 and
float speed 1/80, both inside the ranges `initLanterns` can draw. -/
def lanternCex0 : Lantern := initLantern 280 200 1 lanternCexRand 0

/-- The same lantern after 2000 `update` ticks: it has floated 25px above
the top edge and has not yet respawned (respawn only fires below `-3r =
-60`). -/
def lanternCex : Lantern := lanternIter (fun _ => 0) (fun _ => 0) 280 200 1 2000 lanternCex0

/-- Concrete lantern (radius 20) at `y = 100` for the amended-C4 witness. -/
def lanternWitnessA : Lantern :=
  { x := 0, y := 100, radius := 20, swing := 0, swingSpeed := 0, floatSpeed := 0,
    swayAmount := 0, hue := 0, sat := 0, ribOffset := 0 }

/-- The same lantern moved down to `y = 150`. -/
def lanternWitnessB : Lantern := { lanternWitnessA with y := 150 }

/-- Smoke particle (`initParticles`, lines 986-995). -/
structure SmokeParticle where
  x : ℝ
  y : ℝ
  vx : ℝ
  vy : ℝ
  size : ℝ
  opacity : ℝ
  life : ℝ

/-- Model of `SmokeVisual` instance state; `rngIdx` tracks how many random draws have
been consumed from the stream. -/
structure SmokeState where
  width : ℝ
  height : ℝ
  time : ℝ
  scale : ℝ
  particles : List SmokeParticle
  rngIdx : ℕ

/-- Density-clamped smoke particle count
(`Math.min(80, Math.max(50, Math.floor(50 * s)))`, line 985). -/
noncomputable def smokeCount (s : ℝ) : ℤ := min 80 (max 50 ⌊(50 : ℝ) * s⌋)

/-- One pushed particle of `initParticles` (lines 987-995), consuming the
seven random draws starting at stream index `k` in source order. -/
noncomputable def mkSmokeParticle (w h s : ℝ) (rng : ℕ → ℚ) (k : ℕ) : SmokeParticle :=
  { x := (rng k : ℝ) * w
    y := h + (rng (k + 1) : ℝ) * 200 * s
    vx := ((rng (k + 2) : ℝ) - 0.5) * 0.5
    vy := -0.5 - (rng (k + 3) : ℝ) * 1.5
    size := (20 + (rng (k + 4) : ℝ) * 80) * s
    opacity := 0.1 + (rng (k + 5) : ℝ) * 0.3
    life := (rng (k + 6) : ℝ) }

/-- Model of `SmokeVisual.initParticles` (lines 983-997). Note the faithful detail:
it pushes `count` fresh particles onto the existing `this.particles` array
without clearing it. -/
noncomputable def smokeInitParticles (rng : ℕ → ℚ) (st : SmokeState) : SmokeState :=
  { st with
      particles := st.particles ++ (List.range (smokeCount st.scale).toNat).map
        (fun i => mkSmokeParticle st.width st.height st.scale rng (st.rngIdx + 7 * i))
      rngIdx := st.rngIdx + 7 * (smokeCount st.scale).toNat }

/-- Model of `SmokeVisual` constructor (lines 977-981): base fields, then an empty
particle array, then `initParticles`. -/
noncomputable def mkSmoke (w h : ℝ) (rng : ℕ → ℚ) : SmokeState :=
  smokeInitParticles rng
    { width := w, height := h, time := 0, scale := visualScale w h,
      particles := [], rngIdx := 0 }

/-- Model of `SmokeVisual.resize` (lines 1034-1037): update dimensions and scale, then
call `initParticles` again (which appends, it does not regenerate). -/
noncomputable def smokeResize (rng : ℕ → ℚ) (w h : ℝ) (st : SmokeState) : SmokeState :=
  smokeInitParticles rng { st with width := w, height := h, scale := visualScale w h }

/-- Per-particle parameters of the radial gradients drawn by
`SmokeVisual.render` (lines 1021-1031). -/
structure SmokeDraw where
  x : ℝ
  y : ℝ
  size : ℝ
  opacity : ℝ

/-- Model of `SmokeVisual.render` (lines 1017-1032): background fill over the current
dimensions plus one soft gradient per particle; no instance field is
assigned. -/
def smokeRender (st : SmokeState) : SmokeState × (ℝ × ℝ) × List SmokeDraw :=
  (st, (st.width, st.height),
    st.particles.map (fun p => { x := p.x, y := p.y, size := p.size, opacity := p.opacity }))

/-- Random stream used for the smoke resize counterexample: every draw is
0.9. -/
def smokeCexRand : ℕ → ℚ := fun _ => 9 / 10

/-- A `SmokeVisual` constructed at 280×200 and then resized to 100×100. -/
noncomputable def smokeCexState : SmokeState :=
  smokeResize smokeCexRand 100 100 (mkSmoke 280 200 smokeCexRand)

/-- Light pool entity (`LightShadeVisual.initLights`, lines 1048-1061). -/
structure LightPool where
  x : ℝ
  y : ℝ
  radius : ℝ
  speedX : ℝ
  speedY : ℝ
  hue : ℝ

/-- Model of `LightShadeVisual` instance state. -/
structure LightShadeState where
  width : ℝ
  height : ℝ
  time : ℝ
  scale : ℝ
  lights : List LightPool

/-- Density-clamped light count
(`Math.min(12, Math.max(5, Math.floor(5 * s)))`, line 1050). -/
noncomputable def lightCount (s : ℝ) : ℤ := min 12 (max 5 ⌊(5 : ℝ) * s⌋)

/-- One light pool of `initLights` (lines 1052-1059), consuming six random
draws from index `k`. -/
noncomputable def mkLightPool (w h s : ℝ) (rng : ℕ → ℚ) (k : ℕ) : LightPool :=
  { x := (rng k : ℝ) * w
    y := (rng (k + 1) : ℝ) * h
    radius := (100 + (rng (k + 2) : ℝ) * 200) * s
    speedX := ((rng (k + 3) : ℝ) - 0.5) * 2
    speedY := ((rng (k + 4) : ℝ) - 0.5) * 2
    hue := (rng (k + 5) : ℝ) * 360 }

/-- Model of `LightShadeVisual` constructor (lines 1042-1046): `initLights` populates
an empty array against the freshly computed scale. -/
noncomputable def mkLightShade (w h : ℝ) (rng : ℕ → ℚ) : LightShadeState :=
  { width := w, height := h, time := 0, scale := visualScale w h
    lights := (List.range (lightCount (visualScale w h)).toNat).map
      (fun i => mkLightPool w h (visualScale w h) rng (6 * i)) }

/-- Per-light parameters of the gradients drawn by `LightShadeVisual.render`
(lines 1075-1094). -/
structure LightDraw where
  x : ℝ
  y : ℝ
  radius : ℝ
  hue : ℝ

/-- Model of `LightShadeVisual.render` (lines 1075-1095): dark base fill plus one
radial gradient per light; no instance field is assigned. -/
def lightShadeRender (st : LightShadeState) : LightShadeState × (ℝ × ℝ) × List LightDraw :=
  (st, (st.width, st.height),
    st.lights.map (fun l => { x := l.x, y := l.y, radius := l.radius, hue := l.hue }))

/-- JavaScript `%` (fmod) on reals, valid for the nonnegative dividends and
positive divisors occurring in the source. -/
noncomputable def jsModR (a b : ℝ) : ℝ := a - b * ⌊a / b⌋

/-- The integer hash of `SunsetVisual.drawClouds` (line 1347):
`((n * 92837111) ^ (n >>> 15)) >>> 0` on 32-bit words. For the nonnegative
integer arguments the source feeds it, the bit pattern of `ToInt32` is the
value mod 2^32 and `>>> 0` reads that pattern back as an unsigned value, so
the whole expression is an exclusive-or of residues mod 2^32. -/
def hashJs (n : ℕ) : ℕ := ((n * 92837111) % 2 ^ 32) ^^^ ((n % 2 ^ 32) / 2 ^ 15)

/-- Model of `SunsetVisual` instance state: the constructor (lines 1304-1307) adds
only the constant `zoomOut = 0.58` to the base fields and makes no random
draws; the random stream parameter is accordingly unused. -/
structure SunsetState where
  width : ℝ
  height : ℝ
  time : ℝ
  scale : ℝ
  zoomOut : ℝ

/-- Model of `SunsetVisual` constructor (lines 1304-1307). -/
noncomputable def mkSunset (w h : ℝ) (rng : ℕ → ℚ) : SunsetState :=
  { width := w, height := h, time := 0, scale := visualScale w h, zoomOut := 0.58 }

/-- Model of `SunsetVisual.update` is the inherited `BaseVisual.update` (lines
866-868): advance the simulation clock by the fixed step, touching no other
state and drawing no random value. -/
noncomputable def sunsetUpdate (rng : ℕ → ℚ) (st : SunsetState) : SunsetState :=
  { st with time := st.time + 0.016 }

/-- One cloud blob: center, radius and the cluster opacity of its gradient. -/
structure CloudBlob where
  bx : ℝ
  byy : ℝ
  br : ℝ
  opacity : ℝ

/-- The blob field computed by `SunsetVisual.drawClouds` (lines 1345-1372)
at effective scale `s = scale * zoomOut` (passed from `render`, line 1342):
five hash-seeded clusters of 4-6 blobs, horizontal position advancing with
time modulo `width + 400`. -/
noncomputable def sunsetClouds (st : SunsetState) : List CloudBlob :=
  let s := st.scale * st.zoomOut
  let seed := 12345
  (List.range 5).flatMap (fun i =>
    let t := st.time * 0.08 * s
    let baseX := jsModR (t * 120 + ((hashJs (i + seed + 1) % 1000 : ℕ) : ℝ)) (st.width + 400) - 200
    let baseY := st.height * (0.35 + ((hashJs (i + seed + 2) % 40 : ℕ) : ℝ) / 400) +
      Real.sin (st.time * 0.05 + (i : ℝ)) * 8 * s
    let blobCount := 4 + hashJs (i + seed + 3) % 3
    let opacity := 0.2 + ((hashJs (i + seed + 4) % 18 : ℕ) : ℝ) / 100
    (List.range blobCount).map (fun b =>
      { bx := baseX + (((hashJs (i * 7 + b + seed) % 200 : ℕ) : ℝ) - 100) * 0.5 * s
        byy := baseY + (((hashJs (i * 7 + b + seed + 1) % 80 : ℕ) : ℝ) - 40) * 0.7 * s
        br := (22 + ((hashJs (i * 7 + b + seed + 2) % 32 : ℕ) : ℝ)) * s
        opacity := opacity }))

/-- Sun and sky parameters read by `SunsetVisual.render` (lines 1309-1343);
the five sky gradient stops are literals, so the output is determined by
these values together with the cloud field. -/
structure SunsetOut where
  width : ℝ
  height : ℝ
  sunX : ℝ
  sunY : ℝ
  sunGlowR : ℝ
  sunDiskR : ℝ
  clouds : List CloudBlob

/-- Model of `SunsetVisual.render` (lines 1309-1343): fixed sky gradient, bobbing sun
disk and glow, then `drawClouds`; no instance field is assigned. -/
noncomputable def sunsetRender (st : SunsetState) : SunsetState × SunsetOut :=
  (st,
    { width := st.width, height := st.height
      sunX := st.width * 0.5
      sunY := st.height * 0.3 + Real.sin (st.time * 0.1) * 50 * (st.scale * st.zoomOut)
      sunGlowR := 150 * (st.scale * st.zoomOut)
      sunDiskR := 80 * (st.scale * st.zoomOut)
      clouds := sunsetClouds st })

/-- Bloom form entity (`initBlooms`, lines 1383-1418). -/
structure BloomForm where
  x : ℝ
  y : ℝ
  hue : ℝ
  sat : ℝ
  size : ℝ
  rotation : ℝ
  rotationLag : ℝ
  rotationSpeed : ℝ
  swayPhase : ℝ
  swayTilt : ℝ
  petalPhase : List ℝ
  translucent : Bool
deriving Inhabited

/-- Model of `BloomVisual` instance state. -/
structure BloomState where
  width : ℝ
  height : ℝ
  time : ℝ
  scale : ℝ
  blooms : List BloomForm

/-- Closed form of the two angle-normalization `while` loops
(`while (d > Math.PI) d -= Math.PI * 2; while (d < -Math.PI) d += Math.PI * 2`,
lines 1428-1429 and 1534-1535): subtract or add whole turns until the value
lies in `[-π, π]`; for an input already there it is the identity. -/
noncomputable def wrapAngle (d : ℝ) : ℝ :=
  if Real.pi < d then d - 2 * Real.pi * ⌈(d - Real.pi) / (2 * Real.pi)⌉
  else if d < -Real.pi then d + 2 * Real.pi * ⌈(-Real.pi - d) / (2 * Real.pi)⌉
  else d

/-- The `i`-th bloom of `initBlooms` (lines 1391-1417), consuming the eight
random draws `rng (8i) .. rng (8i+7)` in source order (y offset, hue jitter,
initial rotation, saturation, size jitter, rotation speed, sway phase,
translucency) and the sixteen petal phases `rng (24 + 16i + j)` pushed by the
second pass (lines 1415-1418). -/
noncomputable def mkBloomForm (w h s : ℝ) (rng : ℕ → ℚ) (i : ℕ) : BloomForm :=
  let tx : ℝ := (i : ℝ) / 2
  let x := w * (0.18 + tx * 0.64)
  let nx := x / w
  let hue0 : ℝ :=
    if nx < 0.38 then 200 + (nx / 0.38) * 20 + ((rng (8 * i + 1) : ℝ) - 0.5) * 8
    else if nx < 0.62 then 130 + ((nx - 0.38) / 0.24) * 30 + ((rng (8 * i + 1) : ℝ) - 0.5) * 10
    else 28 + ((nx - 0.62) / 0.38) * 22 + ((rng (8 * i + 1) : ℝ) - 0.5) * 8
  let r0 := (rng (8 * i + 2) : ℝ) * Real.pi * 2
  { x := x
    y := h * 0.5 + ((rng (8 * i) : ℝ) - 0.5) * h * 0.08
    hue := jsModR (hue0 + 360) 360
    sat := 90 + (rng (8 * i + 3) : ℝ) * 10
    size := (min w h * 0.3 * s) *
      (([0.72, 1.15, 0.88] : List ℝ).getD i 0 + ((rng (8 * i + 4) : ℝ) - 0.5) * 0.12)
    rotation := r0
    rotationLag := r0
    rotationSpeed := 0.001 + ((rng (8 * i + 5) : ℝ) - 0.5) * 0.0006
    swayPhase := (rng (8 * i + 6) : ℝ) * Real.pi * 2
    swayTilt := 0
    petalPhase := (List.range 16).map (fun j => (rng (24 + 16 * i + j) : ℝ) * Real.pi * 2)
    translucent := decide (rng (8 * i + 7) < 1 / 2) }

/-- Model of `BloomVisual` constructor (lines 1377-1381): three forms against the
fresh scale. -/
noncomputable def mkBloom (w h : ℝ) (rng : ℕ → ℚ) : BloomState :=
  { width := w, height := h, time := 0, scale := visualScale w h
    blooms := (List.range 3).map (mkBloomForm w h (visualScale w h) rng) }

/-- Per-form step of `BloomVisual.update` (lines 1425-1433): advance the
rotation, normalize the lag difference with the while loops, advance the lag
by 1.4% of it, recompute the sway tilt from the already-advanced clock `t`,
and advance each petal phase by `0.006 + (i % 3) * 0.003`. -/
noncomputable def bloomFormUpdate (t : ℝ) (b : BloomForm) : BloomForm :=
  { b with
      rotation := b.rotation + b.rotationSpeed
      rotationLag := b.rotationLag +
        wrapAngle ((b.rotation + b.rotationSpeed) - b.rotationLag) * 0.014
      swayTilt := 0.06 * Real.sin (t * 0.35 + b.swayPhase) +
        0.03 * Real.sin (t * 0.5 + b.swayPhase * 0.7)
      petalPhase := b.petalPhase.mapIdx (fun i p => p + (0.006 + ((i % 3 : ℕ) : ℝ) * 0.003)) }

/-- Model of `BloomVisual.update` (lines 1421-1434): `super.update()` advances the
clock first, then every bloom is stepped against the new clock. -/
noncomputable def bloomUpdate (st : BloomState) : BloomState :=
  { st with time := st.time + 0.016
            blooms := st.blooms.map (bloomFormUpdate (st.time + 0.016)) }

/-- Everything `BloomVisual.render` (lines 1489-1564) reads from a bloom:
the drawn petal layers, glow, core and rays are a pure function of these
values (`petalLag` is the lag difference normalized by the same while
loops, lines 1533-1536). -/
structure BloomDraw where
  x : ℝ
  y : ℝ
  size : ℝ
  hue : ℝ
  sat : ℝ
  rotation : ℝ
  swayTilt : ℝ
  petalLag : ℝ
  petalPhase : List ℝ
  translucent : Bool

/-- Model of `BloomVisual.render` (lines 1489-1564): background gradient and light
spots determined by the dimensions, then each bloom drawn from its fields;
no instance field is assigned. -/
noncomputable def bloomRender (st : BloomState) : BloomState × (ℝ × ℝ × ℝ) × List BloomDraw :=
  (st, (st.width, st.height, st.time),
    st.blooms.map (fun b =>
      { x := b.x, y := b.y, size := b.size, hue := b.hue, sat := b.sat,
        rotation := b.rotation, swayTilt := b.swayTilt,
        petalLag := wrapAngle (b.rotationLag - b.rotation),
        petalPhase := b.petalPhase, translucent := b.translucent }))

/-- Invariant of every reachable bloom form: the rotation leads the lag by a
small nonnegative angle (far below π), and the rotation speed stays in the
range `initBlooms` can draw. -/
def bloomInv (b : BloomForm) : Prop :=
  0 ≤ b.rotation - b.rotationLag ∧ b.rotation - b.rotationLag ≤ 0.0916 ∧
  0.0007 ≤ b.rotationSpeed ∧ b.rotationSpeed ≤ 0.0013

/-- All-zero random stream used for witnesses. -/
def zeroRand : ℕ → ℚ := fun _ => 0

/-- Street vehicle (`StreetsVisual.initCars`, lines 1581-1589). -/
structure Car where
  depth : ℚ
  phase : ℚ
  rightward : Bool
deriving DecidableEq, Inhabited

/-- Model of `initCars` (lines 1582-1588): five vehicles at depths
`0.15 + (i/5)*0.7`, phases `(i/5)*2`, alternating direction. -/
def initCars : List Car :=
  (List.range 5).map (fun (i : ℕ) =>
    { depth := 0.15 + ((i : ℚ) / 5) * 0.7
      phase := ((i : ℚ) / 5) * 2
      rightward := i % 2 == 0 })

/-- The first vehicle of `initCars`. -/
def car0 : Car := { depth := 0.15, phase := 0, rightward := true }

/-- Per-vehicle step of `StreetsVisual.update` (lines 1591-1599): advance the
phase by `0.00045` in the direction of travel, then wrap by `-2` when the
phase strictly exceeds 2 and by `+2` when it is strictly below 0. -/
def carStep (c : Car) : Car :=
  let p1 := c.phase + (if c.rightward then (0.00045 : ℚ) else -0.00045)
  let p2 := if 2 < p1 then p1 - 2 else p1
  let p3 := if p2 < 0 then p2 + 2 else p2
  { c with phase := p3 }

/-- Model of `StreetsVisual.update` on the whole fleet. -/
def carsUpdate (cars : List Car) : List Car := cars.map carStep

/-- Model of `StreetsVisual` instance state. -/
structure StreetsState where
  width : ℝ
  height : ℝ
  time : ℝ
  scale : ℝ
  cars : List Car

/-- Model of `StreetsVisual` constructor (lines 1575-1579). -/
noncomputable def mkStreets (w h : ℝ) : StreetsState :=
  { width := w, height := h, time := 0, scale := visualScale w h, cars := initCars }

/-- Model of `StreetsVisual.update` (lines 1591-1599): advance the clock and step
every vehicle. -/
noncomputable def streetsUpdate (st : StreetsState) : StreetsState :=
  { st with time := st.time + 0.016, cars := carsUpdate st.cars }

/-- Model of `StreetsVisual.resize` (lines 1793-1796): only `super.resize` runs, so
just the dimensions and scale change; the fleet is left untouched. -/
noncomputable def streetsResize (w h : ℝ) (st : StreetsState) : StreetsState :=
  { st with width := w, height := h, scale := visualScale w h }

/-- Externally triggered operations on a `StreetsVisual` instance. -/
inductive StreetsOp where
  | tick
  | resize (w h : ℝ)

/-- Run a sequence of operations against a Streets instance. -/
noncomputable def streetsRun : List StreetsOp → StreetsState → StreetsState
  | [], st => st
  | .tick :: ops, st => streetsRun ops (streetsUpdate st)
  | .resize w h :: ops, st => streetsRun ops (streetsResize w h st)

/-- The perspective helper `yToT` of `StreetsVisual.render` (line 1608). -/
noncomputable def streetsYToT (h vpY y : ℝ) : ℝ :=
  min 1 (max 0 ((y - vpY) / (h - vpY)))

/-- The projection function of `StreetsVisual.render` (line 1609). -/
noncomputable def streetsProject (w vpX h vpY xNorm y : ℝ) : ℝ :=
  vpX + (xNorm * w - vpX) * streetsYToT h vpY y

/-- The rectangle a vehicle is drawn at (lines 1775-1790). -/
structure CarDraw where
  x : ℝ
  y : ℝ
  carW : ℝ
  carH : ℝ

/-- Model of `StreetsVisual.render` (lines 1601-1791): the road, sidewalks, dashes,
establishments and gate are a fixed function of the current dimensions; each
vehicle is drawn at its projected position and depth-scaled size; no
instance field is assigned. -/
noncomputable def streetsRender (st : StreetsState) : StreetsState × (ℝ × ℝ) × List CarDraw :=
  (st, (st.width, st.height),
    st.cars.map (fun car =>
      let vpX := st.width * 0.5
      let vpY := st.height * 0.32
      let t : ℝ := (car.depth : ℝ)
      let y := vpY + (st.height - vpY) * t
      let sc := 1 - t * 0.88
      let xNorm := 0.22 + (0.78 - 0.22) * (0.15 + (car.phase : ℝ) * 0.7)
      { x := streetsProject st.width vpX st.height vpY xNorm y - 72 * sc / 2
        y := y, carW := 72 * sc, carH := 28 * sc }))

/-- Mosaic mesh node (`initMesh`, lines 891-907). -/
structure MeshNode where
  x0 : ℚ
  y0 : ℚ
  x : ℚ
  y : ℚ
  phase : ℚ
  phaseY : ℚ
  amp : ℚ
deriving DecidableEq, Inhabited

/-- Model of `MosaicVisual` instance state. -/
structure MosaicState where
  width : ℚ
  height : ℚ
  time : ℚ
  scale : ℚ
  grid : List (List MeshNode)
deriving DecidableEq

/-- One filled-and-stroked triangle as computed by `drawTriangle`
(lines 946-967): the three animated vertex positions and the hue, saturation
and lightness of its fill (the stroke reuses them). `msin` is the platform
sine oracle used for the lightness shimmer. -/
structure TriDraw where
  p1x : ℚ
  p1y : ℚ
  p2x : ℚ
  p2y : ℚ
  p3x : ℚ
  p3y : ℚ
  hue : ℚ
  sat : ℚ
  light : ℚ
deriving DecidableEq

/-- Model of `MosaicVisual.drawTriangle` (lines 946-967). -/
def drawTriangle (w h time : ℚ) (msin : ℚ → ℚ) (pa pb pc : MeshNode)
    (hueOffset : ℚ) (seed : ℕ) : TriDraw :=
  let cx := (pa.x + pb.x + pc.x) / 3
  let cy := (pa.y + pb.y + pc.y) / 3
  let nx := max 0 (min 1 (cx / w))
  let ny := max 0 (min 1 (cy / h))
  { p1x := pa.x, p1y := pa.y, p2x := pb.x, p2y := pb.y, p3x := pc.x, p3y := pc.y
    hue := jsModQ (hueOffset + (nx * 0.35 + ny * 0.65) * 300 + (seed : ℚ) * 2) 360
    sat := 70 + ((seed % 3 : ℕ) : ℚ) * 10
    light := 40 + (msin (time * 0.5 + (seed : ℚ) * 0.2) * 0.5 + 0.5) * 25 }

/-- The triangle list drawn by `MosaicVisual.render` (lines 923-944): two
triangles per 2×2 node quad, diagonal orientation alternating with cell
parity, hue offset rotating with the clock. -/
def mosaicTriangles (msin : ℚ → ℚ) (st : MosaicState) : List TriDraw :=
  let hueOffset := jsModQ (st.time * 14) 360
  (List.range (st.grid.length - 1)).flatMap (fun row =>
    let rowList := st.grid.getD row []
    let nextRow := st.grid.getD (row + 1) []
    (List.range (rowList.length - 1)).flatMap (fun col =>
      let p00 := rowList.getD col default
      let p10 := rowList.getD (col + 1) default
      let p01 := nextRow.getD col default
      let p11 := nextRow.getD (col + 1) default
      let flip := (row + col) % 2 == 0
      let tri1 := if flip then (p00, p10, p11) else (p00, p10, p01)
      let tri2 := if flip then (p00, p11, p01) else (p10, p11, p01)
      let seed := row * (rowList.length - 1) + col
      [drawTriangle st.width st.height st.time msin tri1.1 tri1.2.1 tri1.2.2 hueOffset seed,
       drawTriangle st.width st.height st.time msin tri2.1 tri2.2.1 tri2.2.2 hueOffset
         (seed + 1)]))

/-- Model of `MosaicVisual.render` (lines 923-944): background fill plus the triangle
sweep; no instance field is assigned. -/
def mosaicRender (msin : ℚ → ℚ) (st : MosaicState) : MosaicState × (ℚ × ℚ) × List TriDraw :=
  (st, (st.width, st.height), mosaicTriangles msin st)

/-- Skyline building (`UrbanityVisual.initBuildings`, lines 1807-1834);
`lightness` carries the random lightness of its `hsl(200, 30%, L%)` color. -/
structure Building where
  x : ℝ
  bwidth : ℝ
  bheight : ℝ
  lightness : ℝ

/-- Window light (`initBuildings`, lines 1820-1831). -/
structure WindowLight where
  x : ℝ
  y : ℝ
  buildingX : ℝ
  buildingWidth : ℝ
  lit : Bool
  flicker : ℝ

/-- Model of `UrbanityVisual` instance state. -/
structure UrbanityState where
  width : ℝ
  height : ℝ
  time : ℝ
  scale : ℝ
  buildings : List Building
  lights : List WindowLight

/-- A twinkling star of `UrbanityVisual.render` (lines 1856-1863). -/
structure StarDraw where
  x : ℝ
  y : ℝ
  alpha : ℝ

/-- A lit window's flicker draw (lines 1877-1889). -/
structure WindowDraw where
  x : ℝ
  y : ℝ
  brightness : ℝ

/-- Model of `UrbanityVisual.render` (lines 1847-1890): sky gradient, 100 stars
twinkling from the clock, the building fills and one flicker-brightness
square per lit window; no instance field is assigned (the random window
toggling sits in `update`, lines 1837-1845). -/
noncomputable def urbanityRender (st : UrbanityState) :
    UrbanityState × (ℝ × ℝ × ℝ) × List StarDraw × List Building × List WindowDraw :=
  (st, (st.width, st.height, st.time),
    (List.range 100).map (fun (i : ℕ) =>
      { x := jsModR ((i : ℝ) * 37) st.width
        y := jsModR ((i : ℝ) * 73) (st.height * 0.5)
        alpha := (Real.sin (st.time * 2 + (i : ℝ)) * 0.5 + 0.5) * 0.8 }),
    st.buildings,
    st.lights.filterMap (fun l =>
      if l.lit then
        some { x := l.x, y := l.y, brightness := 0.5 + Real.sin l.flicker * 0.3 }
      else none))

end AppJs

namespace AppJs

/-- C1: for positive dimensions, `visualScale(w, h) = sqrt((w*h)/56000)` with
`56000 = 280*200` the reference area; the result is non-negative (the
embedding as a function is itself the no-side-effects reading), and the
function is monotone non-decreasing in surface area. -/
theorem visualScale_spec (w1 h1 w2 h2 : ℝ)
    (hw1 : 0 < w1) (hh1 : 0 < h1) (hw2 : 0 < w2) (hh2 : 0 < h2)
    (harea : w1 * h1 ≤ w2 * h2) :
    REF_AREA = 56000 ∧
    visualScale w1 h1 = Real.sqrt ((w1 * h1) / 56000) ∧
    0 ≤ visualScale w1 h1 ∧
    visualScale w1 h1 ≤ visualScale w2 h2 := by
  refine ⟨by norm_num [REF_AREA], by norm_num [visualScale, REF_AREA], Real.sqrt_nonneg _, ?_⟩
  unfold visualScale
  apply Real.sqrt_le_sqrt
  have : (0:ℝ) < REF_AREA := by norm_num [REF_AREA]
  exact div_le_div_of_nonneg_right harea this.le

/-- Witness for C1 at the concrete sizes 280×200 and 560×400. -/
theorem visualScale_spec_witness :
    REF_AREA = 56000 ∧
    visualScale 280 200 = Real.sqrt ((280 * 200) / 56000) ∧
    0 ≤ visualScale 280 200 ∧
    visualScale 280 200 ≤ visualScale 560 400 :=
  visualScale_spec 280 200 560 400 (by norm_num) (by norm_num) (by norm_num)
    (by norm_num) (by norm_num)

/-- C2: `LanternsVisual.render` merges all branches and lanterns into one
drawable list (its length is the sum of the two collections), and whenever
the entry at position `i` has strictly smaller depth than the entry at
position `j`, position `i` is drawn strictly before position `j`. -/
theorem lanterns_render_depth_order (st : LanternsState) (i j : ℕ)
    (hi : i < (renderDrawables st).length) (hj : j < (renderDrawables st).length)
    (hd : ((renderDrawables st).get ⟨i, hi⟩).depth <
          ((renderDrawables st).get ⟨j, hj⟩).depth) :
    (renderDrawables st).length = st.obstructions.length + st.lanterns.length ∧
    i < j := by
  constructor
  · simp [renderDrawables, List.length_insertionSort]
  · by_contra hij
    push_neg at hij
    have hsorted : (renderDrawables st).Sorted depthLE :=
      List.sorted_insertionSort depthLE _
    rcases lt_or_eq_of_le hij with hlt | heq
    · have hle : depthLE ((renderDrawables st).get ⟨j, hj⟩) ((renderDrawables st).get ⟨i, hi⟩) :=
        hsorted.rel_get_of_lt hlt
      exact absurd hd (not_lt.mpr hle)
    · cases heq
      exact lt_irrefl _ hd

/-- Witness for C2 on a concrete one-branch, one-lantern state. -/
theorem lanterns_render_depth_order_witness :
    (renderDrawables lanternsWitnessState).length = 1 + 1 ∧ (0 : ℕ) < 1 :=
  lanterns_render_depth_order lanternsWitnessState 0 1
    (by norm_num [renderDrawables, lanternsWitnessState, List.insertionSort,
      List.orderedInsert, depthLE, lanternDepth])
    (by norm_num [renderDrawables, lanternsWitnessState, List.insertionSort,
      List.orderedInsert, depthLE, lanternDepth])
    (by norm_num [renderDrawables, lanternsWitnessState, List.insertionSort,
      List.orderedInsert, depthLE, lanternDepth])

/-- As long as a lantern stays at or above `-3r` (so the respawn branch of
`update` never fires), `n` update ticks leave its radius and float speed
unchanged and move it up by exactly `n * floatSpeed`. -/
theorem lanternIter_no_respawn (msin : ℚ → ℚ) (rxs : ℕ → ℚ) (w h s : ℚ)
    (n : ℕ) (l : Lantern) (hfs : 0 ≤ l.floatSpeed)
    (hy : -(l.radius * 3) ≤ l.y - n * l.floatSpeed) :
    (lanternIter msin rxs w h s n l).y = l.y - n * l.floatSpeed ∧
    (lanternIter msin rxs w h s n l).radius = l.radius ∧
    (lanternIter msin rxs w h s n l).floatSpeed = l.floatSpeed := by
  induction n with
  | zero => simp [lanternIter]
  | succ k ih =>
    have hcast : ((k : ℚ)) * l.floatSpeed ≤ ((k + 1 : ℕ) : ℚ) * l.floatSpeed := by
      push_cast
      nlinarith
    have hyk : -(l.radius * 3) ≤ l.y - k * l.floatSpeed := by linarith
    obtain ⟨hyy, hrad, hfsp⟩ := ih hyk
    have hcond : ¬ ((lanternIter msin rxs w h s k l).y -
        (lanternIter msin rxs w h s k l).floatSpeed <
        -((lanternIter msin rxs w h s k l).radius * 3)) := by
      rw [hyy, hrad, hfsp]
      push_cast at hy ⊢
      linarith
    have hstep : lanternIter msin rxs w h s (k + 1) l =
        lanternStep msin (rxs k) w h s (lanternIter msin rxs w h s k l) := rfl
    rw [hstep]
    simp only [lanternStep]
    rw [if_neg hcond]
    refine ⟨?_, ?_, ?_⟩ <;> simp only [hyy, hrad, hfsp] <;> push_cast <;> ring

/-- C4 (corrected): on a 280×200 surface a lantern that `initLanterns` can
generate (radius 20, float speed 1/80, starting at the top edge, all inside
the documented random ranges) floats 25px above the top edge after 2000
updates without respawning, and `lanternDepth` then evaluates to 2837/2800 >
1 -- the claimed interval `[0, 1]` is violated at a reachable state. -/
theorem lantern_depth_can_exceed_one :
    visualScale 280 200 = 1 ∧
    lanternCex0.y = 0 ∧ lanternCex0.radius = 20 ∧ lanternCex0.floatSpeed = 1 / 80 ∧
    lanternCex.radius = 20 ∧ lanternCex.y = -25 ∧
    1 < lanternDepth 200 lanternCex := by
  have h0y : lanternCex0.y = 0 := by
    norm_num [lanternCex0, initLantern, lanternCexRand]
  have h0r : lanternCex0.radius = 20 := by
    norm_num [lanternCex0, initLantern, lanternCexRand]
  have h0f : lanternCex0.floatSpeed = 1 / 80 := by
    norm_num [lanternCex0, initLantern, lanternCexRand]
  have hiter := lanternIter_no_respawn (fun _ => 0) (fun _ => 0) 280 200 1 2000 lanternCex0
    (by rw [h0f]; norm_num) (by rw [h0y, h0r, h0f]; norm_num)
  rw [h0y, h0r, h0f] at hiter
  obtain ⟨hy, hr, -⟩ := hiter
  have hy' : lanternCex.y = -25 := by rw [lanternCex, hy]; norm_num
  have hr' : lanternCex.radius = 20 := by rw [lanternCex, hr]
  refine ⟨?_, h0y, h0r, h0f, hr', hy', ?_⟩
  · rw [visualScale, REF_AREA]
    norm_num
  · show (1 : ℚ) < 0.12 + 0.82 *
      (1 - max (-(lanternCex.radius * 2)) (min (200 + lanternCex.radius * 2) lanternCex.y) /
        (200 + lanternCex.radius * 4))
    rw [hr', hy']
    norm_num

/-- C4 (amended): with positive height and radius, `lanternDepth` lies in
`[0, 1]` for every lantern not above the top edge (`y ≥ 0`), and it strictly
decreases as the clamped vertical position increases -- so a lantern lower
on screen gets a smaller depth and is drawn earlier, the reverse of the
claim's own gloss. -/
theorem lantern_depth_amended (hgt : ℚ) (l : Lantern) (y2 : ℚ)
    (hh : 0 < hgt) (hr : 0 < l.radius) :
    (0 ≤ l.y → 0 ≤ lanternDepth hgt l ∧ lanternDepth hgt l ≤ 1) ∧
    (max (-(l.radius * 2)) (min (hgt + l.radius * 2) l.y) <
       max (-(l.radius * 2)) (min (hgt + l.radius * 2) y2) →
     lanternDepth hgt { l with y := y2 } < lanternDepth hgt l) := by
  have hD : (0 : ℚ) < hgt + l.radius * 4 := by linarith
  constructor
  · intro hy0
    have hyc0 : 0 ≤ max (-(l.radius * 2)) (min (hgt + l.radius * 2) l.y) :=
      le_max_of_le_right (le_min (by linarith) hy0)
    have hyc1 : max (-(l.radius * 2)) (min (hgt + l.radius * 2) l.y) ≤ hgt + l.radius * 2 :=
      max_le (by linarith) (min_le_left _ _)
    have hdiv0 : 0 ≤ max (-(l.radius * 2)) (min (hgt + l.radius * 2) l.y) /
        (hgt + l.radius * 4) := div_nonneg hyc0 hD.le
    have hdiv1 : max (-(l.radius * 2)) (min (hgt + l.radius * 2) l.y) /
        (hgt + l.radius * 4) ≤ 1 := (div_le_one hD).mpr (by linarith)
    constructor
    · show (0 : ℚ) ≤ 0.12 + 0.82 *
        (1 - max (-(l.radius * 2)) (min (hgt + l.radius * 2) l.y) / (hgt + l.radius * 4))
      nlinarith
    · show (0.12 : ℚ) + 0.82 *
        (1 - max (-(l.radius * 2)) (min (hgt + l.radius * 2) l.y) / (hgt + l.radius * 4)) ≤ 1
      nlinarith
  · intro hlt
    show (0.12 : ℚ) + 0.82 *
        (1 - max (-(l.radius * 2)) (min (hgt + l.radius * 2) y2) / (hgt + l.radius * 4)) <
      0.12 + 0.82 *
        (1 - max (-(l.radius * 2)) (min (hgt + l.radius * 2) l.y) / (hgt + l.radius * 4))
    have := (div_lt_div_iff_of_pos_right hD).mpr hlt
    nlinarith [this]

/-- Witness for the amended C4 at height 200, radius 20, `y = 100` against
`y2 = 150`. -/
theorem lantern_depth_amended_witness :
    (0 ≤ lanternWitnessA.y →
      0 ≤ lanternDepth 200 lanternWitnessA ∧ lanternDepth 200 lanternWitnessA ≤ 1) ∧
    (max (-(lanternWitnessA.radius * 2)) (min (200 + lanternWitnessA.radius * 2) lanternWitnessA.y) <
       max (-(lanternWitnessA.radius * 2)) (min (200 + lanternWitnessA.radius * 2) 150) →
     lanternDepth 200 { lanternWitnessA with y := 150 } < lanternDepth 200 lanternWitnessA) :=
  lantern_depth_amended 200 lanternWitnessA 150
    (by norm_num) (by norm_num [lanternWitnessA])

/-- The reference surface has scale exactly 1. -/
theorem visualScale_ref : visualScale 280 200 = 1 := by
  rw [visualScale, REF_AREA]
  norm_num [Real.sqrt_eq_one]

/-- Smoke count at scale values at most 1 is exactly the minimum, 50. -/
theorem smokeCount_of_le_one {s : ℝ} (hs : s ≤ 1) : smokeCount s = 50 := by
  rw [smokeCount]
  have hfloor : ⌊(50 : ℝ) * s⌋ ≤ 50 := by
    have : (50 : ℝ) * s ≤ 50 := by nlinarith
    calc ⌊(50 : ℝ) * s⌋ ≤ ⌊(50 : ℝ)⌋ := Int.floor_le_floor this
    _ = 50 := by norm_num
  rw [max_eq_left hfloor]
  norm_num

/-- Smoke count at 1920×1080 is exactly the maximum, 80. -/
theorem smokeCount_hd : smokeCount (visualScale 1920 1080) = 80 := by
  have hs : (8 / 5 : ℝ) ≤ visualScale 1920 1080 := by
    rw [visualScale, REF_AREA]
    rw [Real.le_sqrt' (by norm_num)]
    norm_num
  have hfloor : (80 : ℤ) ≤ ⌊(50 : ℝ) * visualScale 1920 1080⌋ := by
    rw [Int.le_floor]
    push_cast
    nlinarith
  rw [smokeCount, max_eq_right (le_trans (by norm_num) hfloor), min_eq_left hfloor]

/-- C5: the density clamps. Smoke's particle count at initialization is
`min(80, max(50, ⌊50·scale⌋))`, always in `[50, 80]`; LightShade's light
count is `min(12, max(5, ⌊5·scale⌋))`, always in `[5, 12]`. A Smoke built at
the 280×200 reference has scale 1 and exactly 50 particles; one built at
1920×1080 has exactly 80. -/
theorem entity_counts_clamped (w h : ℝ) (rng : ℕ → ℚ) (s : ℝ) :
    (smokeCount s = min 80 (max 50 ⌊(50 : ℝ) * s⌋) ∧
      50 ≤ smokeCount s ∧ smokeCount s ≤ 80) ∧
    (lightCount s = min 12 (max 5 ⌊(5 : ℝ) * s⌋) ∧
      5 ≤ lightCount s ∧ lightCount s ≤ 12) ∧
    (mkSmoke w h rng).particles.length = (smokeCount (visualScale w h)).toNat ∧
    (mkLightShade w h rng).lights.length = (lightCount (visualScale w h)).toNat ∧
    visualScale 280 200 = 1 ∧
    (mkSmoke 280 200 rng).particles.length = 50 ∧
    (mkSmoke 1920 1080 rng).particles.length = 80 := by
  have hlen : ∀ w' h' : ℝ,
      (mkSmoke w' h' rng).particles.length = (smokeCount (visualScale w' h')).toNat := by
    intro w' h'
    simp [mkSmoke, smokeInitParticles]
  refine ⟨⟨rfl, le_min (by norm_num) (le_max_left _ _), min_le_left _ _⟩,
    ⟨rfl, le_min (by norm_num) (le_max_left _ _), min_le_left _ _⟩,
    hlen w h, ?_, visualScale_ref, ?_, ?_⟩
  · simp [mkLightShade]
  · rw [hlen, smokeCount_of_le_one (le_of_eq visualScale_ref)]
    rfl
  · rw [hlen, smokeCount_hd]
    rfl

/-- C3 (code bug): `SmokeVisual.resize` does not reinitialize the particle
collection. `initParticles` pushes onto the existing array without clearing
it, so after constructing at 280×200 (50 particles, one at `x = 252`) and
resizing to 100×100, the state still holds the 50 stale particles generated
against the old width -- the first particle sits at `x = 252`, far outside
the new `[0, 100]` generation bounds -- plus 50 fresh ones (100 total,
growing with every further resize). -/
theorem smoke_resize_retains_stale_particles :
    smokeCexState.width = 100 ∧ smokeCexState.height = 100 ∧
    smokeCexState.particles.length = 100 ∧
    smokeCexState.particles.head?.map SmokeParticle.x = some 252 ∧
    (100 : ℝ) < 252 := by
  have hc1 : (smokeCount (visualScale 280 200)).toNat = 50 := by
    rw [smokeCount_of_le_one (le_of_eq visualScale_ref)]
    rfl
  have hs2 : visualScale 100 100 ≤ 1 := by
    rw [visualScale, REF_AREA]
    calc Real.sqrt ((100 * 100) / (280 * 200)) ≤ Real.sqrt 1 :=
      Real.sqrt_le_sqrt (by norm_num)
    _ = 1 := Real.sqrt_one
  have hc2 : (smokeCount (visualScale 100 100)).toNat = 50 := by
    rw [smokeCount_of_le_one hs2]
    rfl
  have hparts : smokeCexState.particles =
      (List.range 50).map (fun i => mkSmokeParticle 280 200 (visualScale 280 200)
        smokeCexRand (0 + 7 * i)) ++
      (List.range 50).map (fun i => mkSmokeParticle 100 100 (visualScale 100 100)
        smokeCexRand (0 + 7 * 50 + 7 * i)) := by
    simp [smokeCexState, smokeResize, mkSmoke, smokeInitParticles, hc1, hc2]
  refine ⟨rfl, rfl, ?_, ?_, by norm_num⟩
  · rw [hparts]
    simp
  · rw [hparts]
    rw [show (50 : ℕ) = 49 + 1 from rfl, List.range_succ_eq_map]
    simp [mkSmokeParticle, smokeCexRand]
    norm_num

/-- C6: the Sunset cloud layout is deterministic. The hash-seeded blob field
is a pure function of the state, the constructor and `update` never read the
platform random stream, so two instances built on equal-sized surfaces and
stepped the same number of ticks -- even against different random streams --
compute identical cloud blob positions, radii and opacities. -/
theorem sunset_clouds_deterministic (w h : ℝ) (n : ℕ) (r1 r2 : ℕ → ℚ) :
    sunsetClouds ((sunsetUpdate r1)^[n] (mkSunset w h r1)) =
      sunsetClouds ((sunsetUpdate r2)^[n] (mkSunset w h r2)) ∧
    (sunsetRender ((sunsetUpdate r1)^[n] (mkSunset w h r1))).2 =
      (sunsetRender ((sunsetUpdate r2)^[n] (mkSunset w h r2))).2 := by
  have hupd : sunsetUpdate r1 = sunsetUpdate r2 := rfl
  have hmk : mkSunset w h r1 = mkSunset w h r2 := rfl
  rw [hupd, hmk]
  exact ⟨rfl, rfl⟩

/-- Fresh blooms satisfy the lag invariant: `initBlooms` sets
`rotationLag = rotation` and draws the rotation speed from
`0.001 ± 0.0003`. -/
theorem bloomInv_init (w h : ℝ) (rng : ℕ → ℚ) (hr : ∀ i, 0 ≤ rng i ∧ rng i < 1) :
    ∀ b ∈ (mkBloom w h rng).blooms, bloomInv b := by
  intro b hb
  simp only [mkBloom, List.mem_map, List.mem_range] at hb
  obtain ⟨i, -, rfl⟩ := hb
  obtain ⟨h0, h1⟩ := hr (8 * i + 5)
  have h0' : (0 : ℝ) ≤ (rng (8 * i + 5) : ℝ) := by exact_mod_cast h0
  have h1' : ((rng (8 * i + 5) : ℝ)) ≤ 1 := le_of_lt (by exact_mod_cast h1)
  refine ⟨?_, ?_, ?_, ?_⟩ <;> simp only [mkBloomForm, bloomInv] <;> nlinarith

/-- One update step preserves the lag invariant: under it the normalization
loops never fire and the new lag gap is `0.986` times the old difference. -/
theorem bloomInv_step (t : ℝ) (b : BloomForm) (hb : bloomInv b) :
    bloomInv (bloomFormUpdate t b) := by
  obtain ⟨hg0, hg1, hs0, hs1⟩ := hb
  have hpi := Real.pi_gt_three
  have hwrap : wrapAngle ((b.rotation + b.rotationSpeed) - b.rotationLag) =
      (b.rotation + b.rotationSpeed) - b.rotationLag := by
    rw [wrapAngle, if_neg (by linarith), if_neg (by linarith)]
  refine ⟨?_, ?_, ?_, ?_⟩ <;> simp only [bloomFormUpdate, hwrap] <;> nlinarith

/-- The lag invariant holds after any number of update ticks. -/
theorem bloomInv_iter (w h : ℝ) (rng : ℕ → ℚ) (hr : ∀ i, 0 ≤ rng i ∧ rng i < 1) :
    ∀ n, ∀ b ∈ ((bloomUpdate)^[n] (mkBloom w h rng)).blooms, bloomInv b := by
  intro n
  induction n with
  | zero => simpa using bloomInv_init w h rng hr
  | succ k ih =>
    intro b hb
    rw [Function.iterate_succ_apply'] at hb
    simp only [bloomUpdate, List.mem_map] at hb
    obtain ⟨b', hb', rfl⟩ := hb
    exact bloomInv_step _ b' (ih b' hb')

/-- C8: in every `BloomVisual.update` on a reachable state, each bloom's
petal-layer lag advances by `d * 0.014` where `d` is the difference between
the (just advanced) rotation and the lag, normalized by the while loops; on
these states the normalization is the identity and `d` lies in `(-π, π]`,
so the lag trails the true rotation by exponential smoothing along the
shorter angular path. -/
theorem bloom_rotation_lag_smoothing (w h : ℝ) (rng : ℕ → ℚ)
    (hr : ∀ i, 0 ≤ rng i ∧ rng i < 1) (n : ℕ) (t : ℝ) (b : BloomForm)
    (hb : b ∈ ((bloomUpdate)^[n] (mkBloom w h rng)).blooms) :
    (bloomUpdate ((bloomUpdate)^[n] (mkBloom w h rng))).blooms =
      ((bloomUpdate)^[n] (mkBloom w h rng)).blooms.map
        (bloomFormUpdate (((bloomUpdate)^[n] (mkBloom w h rng)).time + 0.016)) ∧
    (bloomFormUpdate t b).rotationLag =
      b.rotationLag + wrapAngle ((b.rotation + b.rotationSpeed) - b.rotationLag) * 0.014 ∧
    wrapAngle ((b.rotation + b.rotationSpeed) - b.rotationLag) =
      (b.rotation + b.rotationSpeed) - b.rotationLag ∧
    -Real.pi < wrapAngle ((b.rotation + b.rotationSpeed) - b.rotationLag) ∧
    wrapAngle ((b.rotation + b.rotationSpeed) - b.rotationLag) ≤ Real.pi := by
  obtain ⟨hg0, hg1, hs0, hs1⟩ := bloomInv_iter w h rng hr n b hb
  have hpi := Real.pi_gt_three
  have hwrap : wrapAngle ((b.rotation + b.rotationSpeed) - b.rotationLag) =
      (b.rotation + b.rotationSpeed) - b.rotationLag := by
    rw [wrapAngle, if_neg (by linarith), if_neg (by linarith)]
  exact ⟨rfl, rfl, hwrap, by rw [hwrap]; linarith, by rw [hwrap]; linarith⟩

/-- Witness for C8: the first bloom of an instance at 280×200 built from the
all-zeros random stream, before its first update. -/
theorem bloom_rotation_lag_smoothing_witness :
    (bloomUpdate ((bloomUpdate)^[0] (mkBloom 280 200 zeroRand))).blooms =
      ((bloomUpdate)^[0] (mkBloom 280 200 zeroRand)).blooms.map
        (bloomFormUpdate (((bloomUpdate)^[0] (mkBloom 280 200 zeroRand)).time + 0.016)) ∧
    (bloomFormUpdate 0 ((mkBloom 280 200 zeroRand).blooms.getD 0 default)).rotationLag =
      ((mkBloom 280 200 zeroRand).blooms.getD 0 default).rotationLag +
        wrapAngle ((((mkBloom 280 200 zeroRand).blooms.getD 0 default).rotation +
            ((mkBloom 280 200 zeroRand).blooms.getD 0 default).rotationSpeed) -
          ((mkBloom 280 200 zeroRand).blooms.getD 0 default).rotationLag) * 0.014 ∧
    wrapAngle ((((mkBloom 280 200 zeroRand).blooms.getD 0 default).rotation +
          ((mkBloom 280 200 zeroRand).blooms.getD 0 default).rotationSpeed) -
        ((mkBloom 280 200 zeroRand).blooms.getD 0 default).rotationLag) =
      (((mkBloom 280 200 zeroRand).blooms.getD 0 default).rotation +
          ((mkBloom 280 200 zeroRand).blooms.getD 0 default).rotationSpeed) -
        ((mkBloom 280 200 zeroRand).blooms.getD 0 default).rotationLag ∧
    -Real.pi < wrapAngle ((((mkBloom 280 200 zeroRand).blooms.getD 0 default).rotation +
          ((mkBloom 280 200 zeroRand).blooms.getD 0 default).rotationSpeed) -
        ((mkBloom 280 200 zeroRand).blooms.getD 0 default).rotationLag) ∧
    wrapAngle ((((mkBloom 280 200 zeroRand).blooms.getD 0 default).rotation +
          ((mkBloom 280 200 zeroRand).blooms.getD 0 default).rotationSpeed) -
        ((mkBloom 280 200 zeroRand).blooms.getD 0 default).rotationLag) ≤ Real.pi :=
  bloom_rotation_lag_smoothing 280 200 zeroRand
    (fun _ => ⟨le_refl 0, by norm_num [zeroRand]⟩) 0 0
    ((mkBloom 280 200 zeroRand).blooms.getD 0 default)
    (by simp [mkBloom, List.range_succ])

/-- The fleet update is the per-vehicle step mapped over the fleet, so
iterating it is mapping the iterated step. -/
theorem carsUpdate_iterate_eq_map (n : ℕ) (l : List Car) :
    carsUpdate^[n] l = l.map (carStep^[n]) := by
  induction n with
  | zero => simp
  | succ k ih =>
    rw [Function.iterate_succ_apply', ih, Function.iterate_succ']
    simp [carsUpdate]

/-- The first vehicle is part of the initial fleet. -/
theorem car0_mem_initCars : car0 ∈ initCars := by
  refine List.mem_map.mpr ⟨0, by decide, ?_⟩
  show Car.mk (0.15 + ((0 : ℕ) : ℚ) / 5 * 0.7) (((0 : ℕ) : ℚ) / 5 * 2) (0 % 2 == 0) = car0
  rw [car0]
  norm_num

/-- On a rightward vehicle the update step adds `0.00045` and applies the two
wrap checks in sequence. -/
theorem carStep_rightward (c : Car) (h : c.rightward = true) :
    carStep c = { c with phase :=
      if (if 2 < c.phase + 0.00045 then c.phase + 0.00045 - 2 else c.phase + 0.00045) < 0
      then (if 2 < c.phase + 0.00045 then c.phase + 0.00045 - 2 else c.phase + 0.00045) + 2
      else (if 2 < c.phase + 0.00045 then c.phase + 0.00045 - 2 else c.phase + 0.00045) } := by
  simp only [carStep, h, if_true]

/-- Closed form for the first (rightward) vehicle's phase: after `n ≥ 1`
updates from phase 0 it equals `((9n - 1) mod 40000 + 1) / 20000`, the
direction and depth never changing. -/
theorem carStep_iterate_car0 (n : ℕ) (hn : 1 ≤ n) :
    (carStep^[n] car0).phase = (((9 * n - 1) % 40000 + 1 : ℕ) : ℚ) / 20000 ∧
    (carStep^[n] car0).rightward = true ∧
    (carStep^[n] car0).depth = car0.depth := by
  induction n, hn using Nat.le_induction with
  | base =>
    rw [Function.iterate_one, carStep_rightward car0 rfl]
    refine ⟨?_, rfl, rfl⟩
    show (if (if 2 < car0.phase + 0.00045 then car0.phase + 0.00045 - 2
              else car0.phase + 0.00045) < 0
          then (if 2 < car0.phase + 0.00045 then car0.phase + 0.00045 - 2
                else car0.phase + 0.00045) + 2
          else (if 2 < car0.phase + 0.00045 then car0.phase + 0.00045 - 2
                else car0.phase + 0.00045)) = _
    rw [car0]
    norm_num
  | succ k hk ih =>
    obtain ⟨hp, hr, hd⟩ := ih
    have hm40 : (9 * k - 1) % 40000 < 40000 := Nat.mod_lt _ (by norm_num)
    rw [Function.iterate_succ_apply', carStep_rightward _ hr]
    set m := (9 * k - 1) % 40000 with hm
    have hsum : (((m + 1 : ℕ)) : ℚ) / 20000 + 0.00045 = (((m + 10 : ℕ)) : ℚ) / 20000 := by
      rw [show (0.00045 : ℚ) = 9 / 20000 by norm_num]
      push_cast
      ring
    refine ⟨?_, hr, hd⟩
    show (if (if 2 < (carStep^[k] car0).phase + 0.00045
              then (carStep^[k] car0).phase + 0.00045 - 2
              else (carStep^[k] car0).phase + 0.00045) < 0
          then (if 2 < (carStep^[k] car0).phase + 0.00045
                then (carStep^[k] car0).phase + 0.00045 - 2
                else (carStep^[k] car0).phase + 0.00045) + 2
          else (if 2 < (carStep^[k] car0).phase + 0.00045
                then (carStep^[k] car0).phase + 0.00045 - 2
                else (carStep^[k] car0).phase + 0.00045)) = _
    rw [hp, hsum]
    rcases Nat.lt_or_ge m 39991 with hcase | hcase
    · have hmod : (9 * (k + 1) - 1) % 40000 + 1 = m + 10 := by omega
      have hle : (((m + 10 : ℕ)) : ℚ) / 20000 ≤ 2 := by
        rw [div_le_iff (by norm_num)]
        have h1 : (m + 10 : ℕ) ≤ 40000 := by omega
        calc (((m + 10 : ℕ)) : ℚ) ≤ ((40000 : ℕ) : ℚ) := by exact_mod_cast h1
        _ = 2 * 20000 := by norm_num
      have hpos : ¬ (((m + 10 : ℕ)) : ℚ) / 20000 < 0 := by
        push_neg
        positivity
      rw [if_neg (not_lt.mpr hle), if_neg hpos, hmod]
    · have hmod : (9 * (k + 1) - 1) % 40000 + 1 = m + 10 - 40000 := by omega
      have hgt : (2 : ℚ) < (((m + 10 : ℕ)) : ℚ) / 20000 := by
        rw [lt_div_iff (by norm_num)]
        have h1 : (40001 : ℕ) ≤ m + 10 := by omega
        calc (2 : ℚ) * 20000 = 40000 := by norm_num
        _ < (((m + 10 : ℕ)) : ℚ) := by exact_mod_cast h1
      have hpos : ¬ (((m + 10 : ℕ)) : ℚ) / 20000 - 2 < 0 := by
        push_neg
        rw [sub_nonneg, le_div_iff (by norm_num)]
        have h1 : (40000 : ℕ) ≤ m + 10 := by omega
        calc (2 : ℚ) * 20000 = 40000 := by norm_num
        _ ≤ (((m + 10 : ℕ)) : ℚ) := by exact_mod_cast h1
      rw [if_pos hgt, if_neg hpos, hmod]
      have h40 : (40000 : ℕ) ≤ m + 10 := by omega
      have hcast : ((m + 10 - 40000 : ℕ) : ℚ) = (((m + 10 : ℕ)) : ℚ) - 40000 := by
        rw [Nat.cast_sub h40]
        norm_num
      rw [hcast]
      ring

/-- C9 (corrected): starting from the initial fleet, the first vehicle
(rightward, initial phase 0) has phase exactly 2 after 40000 updates -- the
wrap uses a strict comparison, so on landing exactly on the boundary the
phase leaves `[0, 2)` for one frame. -/
theorem streets_phase_reaches_two :
    car0 ∈ initCars ∧
    (carStep^[40000] car0).phase = 2 ∧
    ¬ ((carStep^[40000] car0).phase < 2) ∧
    carStep^[40000] car0 ∈ carsUpdate^[40000] initCars := by
  obtain ⟨hp, -, -⟩ := carStep_iterate_car0 40000 (by norm_num)
  have hval : (carStep^[40000] car0).phase = 2 := by
    rw [hp]
    norm_num
  refine ⟨car0_mem_initCars, hval, by rw [hval]; exact lt_irrefl 2, ?_⟩
  rw [carsUpdate_iterate_eq_map]
  exact List.mem_map_of_mem _ car0_mem_initCars

/-- C9 (amended): every vehicle's phase starts in `[0, 2)` (at `(i/5)*2`)
and stays in the closed interval `[0, 2]` after every number of updates; the
boundary value 2 is attained (for one frame) when a wrap lands exactly on
it, and is wrapped away by the following update. -/
theorem streets_phase_in_closed_interval (n : ℕ) (c : Car)
    (hc : c ∈ carsUpdate^[n] initCars) :
    0 ≤ c.phase ∧ c.phase ≤ 2 ∧ (n = 0 → c.phase < 2) := by
  have hphase : ∀ c' : Car, (carStep c').phase =
      if (if 2 < c'.phase + (if c'.rightward then (0.00045 : ℚ) else -0.00045)
          then c'.phase + (if c'.rightward then (0.00045 : ℚ) else -0.00045) - 2
          else c'.phase + (if c'.rightward then (0.00045 : ℚ) else -0.00045)) < 0
      then (if 2 < c'.phase + (if c'.rightward then (0.00045 : ℚ) else -0.00045)
          then c'.phase + (if c'.rightward then (0.00045 : ℚ) else -0.00045) - 2
          else c'.phase + (if c'.rightward then (0.00045 : ℚ) else -0.00045)) + 2
      else (if 2 < c'.phase + (if c'.rightward then (0.00045 : ℚ) else -0.00045)
          then c'.phase + (if c'.rightward then (0.00045 : ℚ) else -0.00045) - 2
          else c'.phase + (if c'.rightward then (0.00045 : ℚ) else -0.00045)) :=
    fun _ => rfl
  have hbase : ∀ c' ∈ initCars, 0 ≤ c'.phase ∧ c'.phase < 2 := by
    intro c' hc'
    obtain ⟨i, hi, rfl⟩ := List.mem_map.mp hc'
    have hi5 : i < 5 := by simpa using hi
    have hi4 : (i : ℚ) ≤ 4 := by exact_mod_cast Nat.lt_succ_iff.mp hi5
    have hi0 : (0 : ℚ) ≤ (i : ℚ) := Nat.cast_nonneg i
    constructor
    · show (0 : ℚ) ≤ (i : ℚ) / 5 * 2
      positivity
    · show (i : ℚ) / 5 * 2 < 2
      rw [div_mul_eq_mul_div, div_lt_iff (by norm_num)]
      linarith
  have hstep : ∀ c' : Car, 0 ≤ c'.phase → c'.phase ≤ 2 →
      0 ≤ (carStep c').phase ∧ (carStep c').phase ≤ 2 := by
    intro c' h0 h2
    refine ⟨?_, ?_⟩ <;> rw [hphase c'] <;> split_ifs <;> linarith
  have hinv : ∀ k, ∀ c' ∈ carsUpdate^[k] initCars, 0 ≤ c'.phase ∧ c'.phase ≤ 2 := by
    intro k
    induction k with
    | zero =>
      intro c' hc'
      obtain ⟨a, b⟩ := hbase c' hc'
      exact ⟨a, le_of_lt b⟩
    | succ j ih =>
      intro c' hc'
      rw [Function.iterate_succ_apply'] at hc'
      simp only [carsUpdate, List.mem_map] at hc'
      obtain ⟨c'', hc'', rfl⟩ := hc'
      obtain ⟨h0, h2⟩ := ih c'' hc''
      exact hstep c'' h0 h2
  obtain ⟨h0, h2⟩ := hinv n c hc
  refine ⟨h0, h2, ?_⟩
  rintro rfl
  exact (hbase c (by simpa using hc)).2

/-- Witness for the amended C9: the first vehicle before any update. -/
theorem streets_phase_in_closed_interval_witness :
    0 ≤ car0.phase ∧ car0.phase ≤ 2 ∧ ((0 : ℕ) = 0 → car0.phase < 2) :=
  streets_phase_in_closed_interval 0 car0 (by simpa using car0_mem_initCars)

/-- C10: `StreetsVisual.resize` changes only the dimensions and the derived
scale -- the clock and the vehicle fleet (hence every vehicle's depth, phase
and direction) are exactly what they were before the call -- and any
reachable Streets instance (built by the constructor, then any interleaving
of updates and resizes) still holds exactly 5 vehicles. -/
theorem streets_resize_preserves_cars (st : StreetsState) (w h : ℝ)
    (ops : List StreetsOp) :
    (streetsResize w h st).cars = st.cars ∧
    (streetsResize w h st).time = st.time ∧
    (streetsResize w h st).width = w ∧
    (streetsResize w h st).height = h ∧
    (streetsResize w h st).scale = visualScale w h ∧
    (streetsRun ops (mkStreets w h)).cars.length = 5 := by
  refine ⟨rfl, rfl, rfl, rfl, rfl, ?_⟩
  have hlen : ∀ (ops' : List StreetsOp) (st' : StreetsState),
      (streetsRun ops' st').cars.length = st'.cars.length := by
    intro ops'
    induction ops' with
    | nil => intro st'; rfl
    | cons op rest ih =>
      intro st'
      cases op with
      | tick =>
        rw [streetsRun, ih]
        simp [streetsUpdate, carsUpdate]
      | resize w' h' =>
        rw [streetsRun, ih]
        rfl
  rw [hlen]
  simp [mkStreets, initCars]

/-- C7: `render()` never mutates instance state. Each effect's render is
embedded as a function returning the post-render state next to the drawing
output it computes (a faithful translation: none of the eight `render`
methods assigns an instance field or draws a random value); the returned
state is the input state, so rendering twice without an intervening update
yields identical output. -/
theorem render_pure (msin : ℚ → ℚ)
    (stM : MosaicState) (stS : SmokeState) (stL : LightShadeState)
    (stLan : LanternsState) (stSun : SunsetState) (stB : BloomState)
    (stStr : StreetsState) (stU : UrbanityState) :
    (mosaicRender msin stM).1 = stM ∧
    (mosaicRender msin (mosaicRender msin stM).1).2 = (mosaicRender msin stM).2 ∧
    (smokeRender stS).1 = stS ∧
    (smokeRender (smokeRender stS).1).2 = (smokeRender stS).2 ∧
    (lightShadeRender stL).1 = stL ∧
    (lightShadeRender (lightShadeRender stL).1).2 = (lightShadeRender stL).2 ∧
    (lanternsRender stLan).1 = stLan ∧
    (lanternsRender (lanternsRender stLan).1).2 = (lanternsRender stLan).2 ∧
    (sunsetRender stSun).1 = stSun ∧
    (sunsetRender (sunsetRender stSun).1).2 = (sunsetRender stSun).2 ∧
    (bloomRender stB).1 = stB ∧
    (bloomRender (bloomRender stB).1).2 = (bloomRender stB).2 ∧
    (streetsRender stStr).1 = stStr ∧
    (streetsRender (streetsRender stStr).1).2 = (streetsRender stStr).2 ∧
    (urbanityRender stU).1 = stU ∧
    (urbanityRender (urbanityRender stU).1).2 = (urbanityRender stU).2 :=
  ⟨rfl, rfl, rfl, rfl, rfl, rfl, rfl, rfl, rfl, rfl, rfl, rfl, rfl, rfl, rfl, rfl⟩

end AppJs
